import Mathlib

/-!
Shallow embedding of the `Cpp` toolchain of the devchain repository
(`devchain_toolchains/cpp.py` together with the value types of
`devchain_toolchains/utils/types.py`).

The embedding makes the implicit effects of the Python code explicit:

* the filesystem facts the code consults are collected in `Env`
  (root directory path, existence of the `CMakeLists.txt` marker, the
  listings of the bundled settings directory and of the project-local
  `tools/conan` directory, ...);
* answers to the remaining runtime queries (existence checks made during
  `build`, exit codes of the spawned processes, the executables discovered
  by `glob`) are collected in `Oracle`;
* every spawned process and every filesystem mutation is recorded as an
  `Event` in an output trace;
* a Python exception (`FileNotFoundError` raised by `os.listdir` on a
  missing directory, `KeyError` raised by a dict lookup) is modelled by
  `Except PyError`.

Machine integers do not occur; process exit codes are modelled as `Int`.
Python dicts keep insertion order, which `dictSet`/`dictGet` mirror on an
association list.
-/

/-- `ToolchainStatus` of `utils/types.py`. -/
inductive ToolchainStatus where
  | NOT_AVAILABLE
  | OUTDATED
  | AVAILABLE
deriving DecidableEq

/-- `ToolchainOption` of `utils/types.py`: a named group of string values. -/
structure ToolchainOption where
  name : String := ""
  values : List String := []
deriving DecidableEq

/-- `ToolchainInfo` of `utils/types.py`. -/
structure ToolchainInfo where
  name : String := "none"
  status : ToolchainStatus := ToolchainStatus.NOT_AVAILABLE
  build_opts : List ToolchainOption := []
  run_opts : List ToolchainOption := []
  deploy_opts : List ToolchainOption := []
deriving DecidableEq

/-- `StatusCode` of `utils/types.py`. -/
inductive StatusCode where
  | SUCCESS
  | ERROR_INTERNAL
  | ERROR_INVALID_CONFIG
  | ERROR_COMMAND_FAILED
deriving DecidableEq, BEq

/-- `Result` of `utils/types.py`; `info` is a Python dict in insertion
order, modelled as an association list. -/
structure Result where
  code : StatusCode
  message : String := ""
  info : List (String × String) := []
deriving DecidableEq

/-- `Result.ok` of `utils/types.py`. -/
def Result.ok (r : Result) : Bool := r.code == StatusCode.SUCCESS

/-- The Python exceptions the embedded code can raise. -/
inductive PyError where
  | fileNotFound
  | keyError
deriving DecidableEq

/-- One observable effect: a spawned process or a filesystem mutation. -/
inductive Event where
  | spawn (cmd : String)
  | copyFile (src : String) (dst : String)
  | makedirs (path : String)
  | copyTree (src : String) (dst : String)
  | removeTree (path : String)
  | removeFile (path : String)
deriving DecidableEq

/-- Whether an event is a process spawn. -/
def Event.isSpawn : Event → Bool
  | Event.spawn _ => true
  | _ => false

/-- `os.path.join` for the relative paths the code builds. -/
def pjoin (a b : String) : String := a ++ "/" ++ b

/-- `os.path.basename`: the part after the last slash (computed on the
character list so that it evaluates by kernel reduction). -/
def basename (p : String) : String :=
  String.mk ((p.toList.reverse.takeWhile (fun c => c != '/')).reverse)

/-- Whether `p` ends with the suffix `suf` (kernel-computable). -/
def strEndsWith (p suf : String) : Bool := suf.toList.isSuffixOf p.toList

/-- Whether every character of the string is ASCII: the domain on which
the embedding of the regex and of `str.upper()` is exact. -/
def allAscii (s : String) : Bool := s.toList.all (fun c => c.toNat < 128)

/-- Python dict assignment `d[k] = v`: update in place if `k` is present,
otherwise append at the end (insertion order). -/
def dictSet (d : List (String × String)) (k v : String) : List (String × String) :=
  match d with
  | [] => [(k, v)]
  | (k0, v0) :: rest =>
    if k0 = k then (k0, v) :: rest else (k0, v0) :: dictSet rest k v

/-- Python dict lookup `d[k]`, raising `KeyError` when absent. -/
def dictGet (d : List (String × String)) (k : String) : Except PyError String :=
  match d with
  | [] => Except.error PyError.keyError
  | (k0, v0) :: rest => if k0 = k then Except.ok v0 else dictGet rest k

/-- The filesystem facts a `Cpp` instance consults. -/
structure Env where
  /-- The constructor argument `directory` (`self.__root_directory`). -/
  rootDir : String
  /-- Whether the root directory exists. -/
  rootExists : Bool
  /-- `os.listdir(root)`. -/
  rootList : List String
  /-- Whether `<root>/CMakeLists.txt` exists. -/
  markerExists : Bool
  /-- Whether `<root>/tools/conan` exists. -/
  conanDirExists : Bool
  /-- `os.listdir` of the bundled settings directory. -/
  settingsDirList : List String
  /-- `os.listdir(<root>/tools/conan)` (meaningful when it exists). -/
  conanDirList : List String
  /-- Whether `<root>/build` exists (consulted by `clean`). -/
  buildDirTopExists : Bool
  /-- Whether `<root>/compile_commands.json` exists (consulted by `clean`). -/
  compileCommandsRootExists : Bool
deriving DecidableEq

/-- Answers to the runtime queries made while building and running tools. -/
structure Oracle where
  /-- Whether `<root>/tools/conan/<settings>` exists. -/
  conanProfileExists : Bool
  /-- Whether the bundled `<settings dir>/<settings>` exists. -/
  bundledProfileExists : Bool
  /-- Whether `<root>/build/<settings>` exists before the build. -/
  buildDirExists : Bool
  /-- Exit code of the `conan install` command. -/
  conanExit : Int
  /-- Whether `conan_toolchain.cmake` exists after the install step. -/
  toolchainFileExists : Bool
  /-- Exit code of the cmake configure command. -/
  configExit : Int
  /-- Exit code of the cmake build command. -/
  compileExit : Int
  /-- Whether `compile_commands.json` exists after the compile step. -/
  compileCommandsExists : Bool
  /-- The `*-test` executables found by `glob`, with their exit codes. -/
  testApps : List (String × Int)
  /-- The `*-bench` executables found by `glob`, with their exit codes. -/
  benchApps : List (String × Int)
deriving DecidableEq

/-- Path of the bundled settings directory
(`files("devchain_toolchains.data")/cpp/settings`). -/
def dataSettingsDir : String := "devchain_toolchains.data/cpp/settings"

/-- Path of the bundled template directory. -/
def dataTemplateDir : String := "devchain_toolchains.data/cpp/template"

/-- `self.__default_settings`. -/
def default_settings : String := "clang14__x86_64-pc-linux-elf__release"

/-- `self.__build_directory` joined with a settings name. -/
def buildDirFor (env : Env) (s : String) : String :=
  pjoin (pjoin env.rootDir "build") s

/-- `os.path.join(self.__tools_conan_directory, settings)`. -/
def settingsPath (env : Env) (s : String) : String :=
  pjoin (pjoin (pjoin env.rootDir "tools") "conan") s

/-- `os.listdir(self.__root_directory)`: raises when the root is missing. -/
def listdirRoot (env : Env) : Except PyError (List String) :=
  if env.rootExists then Except.ok env.rootList else Except.error PyError.fileNotFound

/-- `os.listdir(self.__tools_conan_directory)`: raises when `tools/conan`
is missing. -/
def listdirConan (env : Env) : Except PyError (List String) :=
  if env.conanDirExists then Except.ok env.conanDirList else Except.error PyError.fileNotFound

/-- CPython `settings.extend(x for x in ys if x not in settings)`:
the generator sees the list as it grows, so elements are appended one by
one, each checked against the already-extended list. -/
def extendDedup (base : List String) (ys : List String) : List String :=
  match ys with
  | [] => base
  | y :: rest => if y ∈ base then extendDedup base rest else extendDedup (base ++ [y]) rest

/-- `Cpp.__has_cpp_toolchain`: the root directory exists and contains the
`CMakeLists.txt` marker. -/
def Cpp.has_cpp_toolchain (env : Env) : Bool :=
  env.rootExists && env.markerExists

/-- `Cpp.__settings`: the bundled settings listing extended with the
entries of `tools/conan` not already present. -/
def Cpp.settings (env : Env) : Except PyError (List String) :=
  match listdirConan env with
  | Except.error e => Except.error e
  | Except.ok conanList => Except.ok (extendDedup env.settingsDirList conanList)

/-- `Cpp.__tools`: the fixed tool list. -/
def Cpp.tools : List String :=
  ["clang-tidy", "gtest", "benchmark", "asan", "msan", "tsan"]

/-- `Cpp.info`: NOT_AVAILABLE with the defaulted (empty) option lists when
the marker is missing; otherwise AVAILABLE with the settings catalog and
the tool list. -/
def Cpp.info (env : Env) : Except PyError ToolchainInfo :=
  if Cpp.has_cpp_toolchain env = false then
    Except.ok { name := "cpp" }
  else
    match Cpp.settings env with
    | Except.error e => Except.error e
    | Except.ok vals =>
      Except.ok { name := "cpp", status := ToolchainStatus.AVAILABLE,
                  build_opts := [{ name := "settings", values := vals }],
                  run_opts := [{ name := "tool", values := Cpp.tools }] }

/-- The membership loop shared by `__in_settings` and `__in_tools`:
scan the option groups, return true on the first group with the wanted
name that contains the value. -/
def inOpts (opts : List ToolchainOption) (group s : String) : Bool :=
  match opts with
  | [] => false
  | o :: rest => if o.name = group ∧ s ∈ o.values then true else inOpts rest group s

/-- `Cpp.__in_settings`. -/
def Cpp.in_settings (env : Env) (s : String) : Except PyError Bool :=
  match Cpp.info env with
  | Except.error e => Except.error e
  | Except.ok i => Except.ok (inOpts i.build_opts "settings" s)

/-- `Cpp.__in_tools`. -/
def Cpp.in_tools (env : Env) (t : String) : Except PyError Bool :=
  match Cpp.info env with
  | Except.error e => Except.error e
  | Except.ok i => Except.ok (inOpts i.run_opts "tool" t)

/-- The regex class `\w`, modelled on the ASCII fragment: Python's `re`
is Unicode-aware, and on ASCII characters `\w` is exactly alphanumerics
plus underscore. Theorems quantifying over strings restrict to ASCII
inputs (`allAscii`), where this function agrees with the source; the
model asserts nothing about non-ASCII settings names. -/
def isWordChar (c : Char) : Bool := c.isAlphanum || c = '_'

/-- The word part matched by `(\w+)$`: `$` may also match just before a
final newline, in which case that newline is not part of the group. -/
def suffixCore (w : List Char) : List Char :=
  if w.getLast? = some '\n' then w.dropLast else w

/-- Whether a character list matches `(\w+)$`. -/
def suffixMatchB (w : List Char) : Bool :=
  !(suffixCore w).isEmpty && (suffixCore w).all isWordChar

/-- Whether `.+__(\w+)$` can match with the `.+` part of length `i`:
a nonempty newline-free prefix, then `__`, then a word suffix. -/
def checkSplit (l : List Char) (i : Nat) : Bool :=
  decide (1 ≤ i) && decide (i + 2 < l.length) &&
  (l.take i).all (fun c => c != '\n') &&
  l.get? i == some '_' && l.get? (i + 1) == some '_' &&
  suffixMatchB (l.drop (i + 2))

/-- Greedy backtracking of `.+`: the largest split position `≤ n` that
matches wins. -/
def findSplit (l : List Char) : Nat → Option Nat
  | 0 => none
  | i + 1 => if checkSplit l (i + 1) then some (i + 1) else findSplit l i

/-- Group 1 of `re.match(".+__(\w+)$", s)`, when the regex matches. -/
def reGroup (l : List Char) : Option (List Char) :=
  match findSplit l l.length with
  | none => none
  | some i => some (suffixCore (l.drop (i + 2)))

/-- `Cpp.__build_type`: group 1 of the regex match upper-cased, the empty
string when the regex does not match. `str.upper()` is modelled by the
ASCII `Char.toUpper`; together with `isWordChar` this makes the model
exact on ASCII strings (which all bundled settings names are), and
theorems about it carry an `allAscii` hypothesis. -/
def Cpp.build_type (s : String) : String :=
  match reGroup s.toList with
  | some g => String.mk (g.map Char.toUpper)
  | none => ""

/-- Specification predicate, independent of the matcher implementation:
position `i` splits `l` into a nonempty newline-free prefix, a literal
`__`, and a trailing word segment (`$` may sit before a final newline).
This is what "the settings name has a trailing double-underscore word
segment at `i`" means. -/
def validSplit (l : List Char) (i : Nat) : Prop :=
  1 ≤ i ∧ i + 2 < l.length ∧ (∀ c ∈ l.take i, c ≠ '\n') ∧
  l.get? i = some '_' ∧ l.get? (i + 1) = some '_' ∧
  ∃ v : List Char,
    (l.drop (i + 2) = v ∨ l.drop (i + 2) = v ++ ['\n']) ∧ v ≠ [] ∧
    ∀ c ∈ v, isWordChar c = true

/-- The `conan install` command line (`cmd1`). -/
def conanCmd (env : Env) (s : String) : String :=
  String.intercalate " "
    ["conan install " ++ env.rootDir,
     "--output-folder " ++ buildDirFor env s,
     "--profile:host " ++ settingsPath env s,
     "--profile:build " ++ settingsPath env s,
     "--build missing"]

/-- The cmake configure command line (`cmd2`). -/
def cmakeConfigureCmd (env : Env) (s : String) (cmake_opts : List String) : String :=
  String.intercalate " "
    (["cmake",
      "-DCMAKE_BUILD_TYPE=" ++ Cpp.build_type s,
      "-DCMAKE_TOOLCHAIN_FILE=" ++ pjoin (buildDirFor env s) "conan_toolchain.cmake"]
     ++ cmake_opts ++ [env.rootDir])

/-- The cmake build command line (`cmd3`). -/
def cmakeBuildCmd (env : Env) (s : String) : String :=
  String.intercalate " " ["cmake", "--build " ++ buildDirFor env s, "-- -j"]

/-- The part of `Cpp.build` after the settings validation: profile
resolution, workspace preparation, the three external commands, and the
publication of `compile_commands.json`. Returns the `Result` together
with the trace of effects. -/
def buildCore (env : Env) (oracle : Oracle) (s : String)
    (cmake_opts : List String) (verbose : Bool) : Result × List Event :=
  if oracle.conanProfileExists = false ∧ oracle.bundledProfileExists = false then
    ({ code := StatusCode.ERROR_INVALID_CONFIG, message := "Unknown settings" }, [])
  else
    let ev0 : List Event :=
      if oracle.conanProfileExists then []
      else [Event.copyFile (pjoin dataSettingsDir s) (settingsPath env s)]
    let bd := buildDirFor env s
    let ev1 := ev0 ++ (if oracle.buildDirExists then [] else [Event.makedirs bd])
    let ev2 := ev1 ++ [Event.spawn (conanCmd env s)]
    if oracle.conanExit ≠ 0 then
      ({ code := StatusCode.ERROR_COMMAND_FAILED,
         message := "Failed to install conan packages" }, ev2)
    else if oracle.toolchainFileExists = false then
      ({ code := StatusCode.ERROR_INVALID_CONFIG,
         message := "conan_toolchain.cmake is missing" }, ev2)
    else
      let ev3 := ev2 ++ [Event.spawn (cmakeConfigureCmd env s cmake_opts)]
      if oracle.configExit ≠ 0 then
        ({ code := StatusCode.ERROR_COMMAND_FAILED,
           message := "Failed to prepare project" }, ev3)
      else
        let ev4 := ev3 ++ [Event.spawn (cmakeBuildCmd env s)]
        if oracle.compileExit ≠ 0 then
          ({ code := StatusCode.ERROR_COMMAND_FAILED,
             message := "Failed to prepare project" }, ev4)
        else
          let ev5 := ev4 ++
            (if oracle.compileCommandsExists then
               [Event.copyFile (pjoin bd "compile_commands.json") env.rootDir]
             else [])
          let base_info := [("root-directory", env.rootDir), ("build-directory", bd)]
          let result_info :=
            if verbose then
              base_info ++ [("command-1", conanCmd env s),
                            ("command-2", cmakeConfigureCmd env s cmake_opts),
                            ("command-3", cmakeBuildCmd env s)]
            else base_info
          ({ code := StatusCode.SUCCESS, message := "Project successfully built",
             info := result_info }, ev5)

/-- `Cpp.build`: validate the settings name, then run the pipeline. -/
def Cpp.build (env : Env) (oracle : Oracle) (s : String)
    (cmake_opts : List String) (verbose : Bool) :
    Except PyError (Result × List Event) :=
  match Cpp.in_settings env s with
  | Except.error e => Except.error e
  | Except.ok valid =>
    if valid = false then
      Except.ok ({ code := StatusCode.ERROR_INVALID_CONFIG, message := "Unknown settings" }, [])
    else
      Except.ok (buildCore env oracle s cmake_opts verbose)

/-- `Cpp.create`: reject a non-empty root unless `force`, else copy the
template tree. `os.listdir` raises when the root directory is missing. -/
def Cpp.create (env : Env) (force : Bool) : Except PyError (Result × List Event) :=
  if force = false then
    match listdirRoot env with
    | Except.error e => Except.error e
    | Except.ok l =>
      if l.length > 0 then
        Except.ok ({ code := StatusCode.ERROR_INVALID_CONFIG,
                     message := "Target directory is not empty",
                     info := [("root-directory", env.rootDir)] }, [])
      else
        Except.ok ({ code := StatusCode.SUCCESS,
                     message := "Project successfully set up",
                     info := [("root-directory", env.rootDir)] },
                   [Event.copyTree dataTemplateDir env.rootDir])
  else
    Except.ok ({ code := StatusCode.SUCCESS,
                 message := "Project successfully set up",
                 info := [("root-directory", env.rootDir)] },
               [Event.copyTree dataTemplateDir env.rootDir])

/-- `Cpp.clean`: remove the build directory and `compile_commands.json`
when present; always SUCCESS. -/
def Cpp.clean (env : Env) : Result × List Event :=
  let ev1 : List Event :=
    if env.buildDirTopExists then [Event.removeTree (pjoin env.rootDir "build")] else []
  let ev2 := ev1 ++
    (if env.compileCommandsRootExists then
       [Event.removeFile (pjoin env.rootDir "compile_commands.json")]
     else [])
  ({ code := StatusCode.SUCCESS,
     message := "Project cleanup successfully completed",
     info := [("root-directory", env.rootDir),
              ("build-directory", pjoin env.rootDir "build")] }, ev2)

/-- The per-executable loop shared by `__run_gtest`, `__run_benchmark` and
`__run_xsan`: run every discovered executable, downgrade the code and set
the message `msg` on a non-zero exit, and record one pass/fail entry per
executable under its basename. -/
def gtestLoop (apps : List (String × Int)) (msg : String) (r : Result) :
    Result × List Event :=
  match apps with
  | [] => (r, [])
  | (app, ec) :: rest =>
    let r2 :=
      if ec ≠ 0 then
        { r with code := StatusCode.ERROR_COMMAND_FAILED, message := msg,
                 info := dictSet r.info (basename app) "[red]failed[/red]" }
      else
        { r with info := dictSet r.info (basename app) "[green]passed[/green]" }
    let rec_result := gtestLoop rest msg r2
    (rec_result.1, Event.spawn app :: rec_result.2)

/-- `Cpp.__run_clang_tidy`: clean, then build with the analysis option. -/
def Cpp.run_clang_tidy (env : Env) (oracle : Oracle) (verbose : Bool) :
    Except PyError (Result × List Event) :=
  let cleaned := Cpp.clean env
  if cleaned.1.ok = false then Except.ok cleaned
  else
    match Cpp.build env oracle default_settings ["-DANALYSIS=clang-tidy"] verbose with
    | Except.error e => Except.error e
    | Except.ok built => Except.ok (built.1, cleaned.2 ++ built.2)

/-- `Cpp.__run_gtest`: build with default settings, then run every
`*-test` executable, aggregating pass/fail per executable. -/
def Cpp.run_gtest (env : Env) (oracle : Oracle) (verbose : Bool) :
    Except PyError (Result × List Event) :=
  match Cpp.build env oracle default_settings [] verbose with
  | Except.error e => Except.error e
  | Except.ok built =>
    if built.1.ok = false then Except.ok built
    else
      let bd := buildDirFor env default_settings
      let r0 : Result :=
        { code := StatusCode.SUCCESS, message := "Tests successfully executed",
          info := [("root-directory", env.rootDir), ("build-directory", bd)] }
      let looped := gtestLoop oracle.testApps "Failed to run gtest" r0
      Except.ok (looped.1, built.2 ++ looped.2)

/-- `Cpp.__run_benchmark`: build with default settings, then run every
`*-bench` executable. -/
def Cpp.run_benchmark (env : Env) (oracle : Oracle) (verbose : Bool) :
    Except PyError (Result × List Event) :=
  match Cpp.build env oracle default_settings [] verbose with
  | Except.error e => Except.error e
  | Except.ok built =>
    if built.1.ok = false then Except.ok built
    else
      let bd := buildDirFor env default_settings
      let r0 : Result :=
        { code := StatusCode.SUCCESS, message := "Benchmarks successfully executed",
          info := [("root-directory", env.rootDir), ("build-directory", bd)] }
      let looped := gtestLoop oracle.benchApps "Failed to run benchmark" r0
      Except.ok (looped.1, built.2 ++ looped.2)

/-- `Cpp.__run_xsan`: clean, build with the sanitizer option, then run
every `*-test` executable, folding outcomes into the build result. -/
def Cpp.run_xsan (env : Env) (oracle : Oracle) (sanitizer : String) (verbose : Bool) :
    Except PyError (Result × List Event) :=
  let cleaned := Cpp.clean env
  if cleaned.1.ok = false then Except.ok cleaned
  else
    match Cpp.build env oracle default_settings ["-DSANITIZER=" ++ sanitizer] verbose with
    | Except.error e => Except.error e
    | Except.ok built =>
      if built.1.ok = false then Except.ok (built.1, cleaned.2 ++ built.2)
      else
        match dictGet built.1.info "build-directory" with
        | Except.error e => Except.error e
        | Except.ok _bd =>
          let looped := gtestLoop oracle.testApps "Failed to run test" built.1
          Except.ok (looped.1, cleaned.2 ++ built.2 ++ looped.2)

/-- `Cpp.run`: validate the tool name, then dispatch; the final branch is
the defensive internal-error result. -/
def Cpp.run (env : Env) (oracle : Oracle) (tool : String) (verbose : Bool) :
    Except PyError (Result × List Event) :=
  match Cpp.in_tools env tool with
  | Except.error e => Except.error e
  | Except.ok valid =>
    if valid = false then
      Except.ok ({ code := StatusCode.ERROR_INVALID_CONFIG, message := "Unknown tool" }, [])
    else if tool = "clang-tidy" then Cpp.run_clang_tidy env oracle verbose
    else if tool = "gtest" then Cpp.run_gtest env oracle verbose
    else if tool = "benchmark" then Cpp.run_benchmark env oracle verbose
    else if tool = "asan" then Cpp.run_xsan env oracle "asan" verbose
    else if tool = "msan" then Cpp.run_xsan env oracle "msan" verbose
    else if tool = "tsan" then Cpp.run_xsan env oracle "tsan" verbose
    else
      Except.ok ({ code := StatusCode.ERROR_INTERNAL, message := "Internal error",
                   info := [("root-directory", env.rootDir)] }, [])

/-- Projection used by closed witnesses: the status code of a returned
result, `none` when an exception was raised. -/
def resCodeOf (x : Except PyError (Result × List Event)) : Option StatusCode :=
  match x with
  | Except.ok p => some p.1.code
  | Except.error _ => none

/-- Projection used by closed witnesses: the message of a returned result. -/
def resMsgOf (x : Except PyError (Result × List Event)) : Option String :=
  match x with
  | Except.ok p => some p.1.message
  | Except.error _ => none

/-- Projection used by closed witnesses: the detail map of a returned
result. -/
def resInfoOf (x : Except PyError (Result × List Event)) :
    Option (List (String × String)) :=
  match x with
  | Except.ok p => some p.1.info
  | Except.error _ => none

/-- A concrete set-up project: marker present, `tools/conan` present, one
bundled settings file (the default settings). -/
def exEnvProj : Env :=
  { rootDir := "proj", rootExists := true, rootList := ["CMakeLists.txt"],
    markerExists := true, conanDirExists := true,
    settingsDirList := ["clang14__x86_64-pc-linux-elf__release"], conanDirList := [],
    buildDirTopExists := false, compileCommandsRootExists := false }

/-- A concrete oracle: the whole pipeline succeeds; the test glob finds
one passing and one failing executable. -/
def exOracleTests : Oracle :=
  { conanProfileExists := false, bundledProfileExists := true, buildDirExists := false,
    conanExit := 0, toolchainFileExists := true, configExit := 0, compileExit := 0,
    compileCommandsExists := false,
    testApps := [("proj/build/app/a-test", 0), ("proj/build/lib/b-test", 1)],
    benchApps := [] }

/-- The same oracle with a failing package-manager install step. -/
def exOracleFailInstall : Oracle := { exOracleTests with conanExit := 1 }

/-- The successful-build oracle where the recursive glob finds two test
executables in different subdirectories sharing the base name `a-test`:
the first fails, the second passes. -/
def exOracleDupTests : Oracle :=
  { exOracleTests with
    testApps := [("proj/build/app/a-test", 1), ("proj/build/lib/a-test", 0)] }

/-- The project directory without the `CMakeLists.txt` marker. -/
def exEnvNoMarker : Env := { exEnvProj with markerExists := false }

/-- The project directory with the marker but without `tools/conan`. -/
def exEnvNoConan : Env := { exEnvProj with conanDirExists := false }

/-- The concrete outcome of the default-settings build on the example
project (used to instantiate theorems at a closed input). -/
def exBuildOut : Result × List Event :=
  match Cpp.build exEnvProj exOracleTests default_settings [] false with
  | Except.ok p => p
  | Except.error _ => ({ code := StatusCode.ERROR_INTERNAL }, [])

/-- The concrete outcome of running the gtest tool on the example
project. -/
def exRunOut : Result × List Event :=
  match Cpp.run exEnvProj exOracleTests "gtest" false with
  | Except.ok p => p
  | Except.error _ => ({ code := StatusCode.ERROR_INTERNAL }, [])

/-! ### Helper lemmas -/

/-- Membership in the incrementally deduplicating extension. -/
theorem extendDedup_mem (ys : List String) (base : List String) (a : String) :
    a ∈ extendDedup base ys ↔ a ∈ base ∨ a ∈ ys := by
  induction ys generalizing base with
  | nil => simp [extendDedup]
  | cons y rest ih =>
    by_cases hy : y ∈ base
    · simp only [extendDedup, if_pos hy, ih, List.mem_cons]
      constructor
      · rintro (h | h)
        · exact Or.inl h
        · exact Or.inr (Or.inr h)
      · rintro (h | h | h)
        · exact Or.inl h
        · exact Or.inl (h ▸ hy)
        · exact Or.inr h
    · simp only [extendDedup, if_neg hy, ih, List.mem_append, List.mem_cons,
        List.mem_singleton]
      tauto

/-- The deduplicating extension of a duplicate-free listing is
duplicate-free. -/
theorem extendDedup_nodup (ys : List String) (base : List String)
    (h : base.Nodup) : (extendDedup base ys).Nodup := by
  induction ys generalizing base with
  | nil => exact h
  | cons y rest ih =>
    by_cases hy : y ∈ base
    · simpa [extendDedup, if_pos hy] using ih base h
    · have hb : (base ++ [y]).Nodup := by simp [List.nodup_append, h, hy]
      simpa [extendDedup, if_neg hy] using ih (base ++ [y]) hb

/-- `dictSet` on a dict not containing the key appends the binding. -/
theorem dictSet_append (d : List (String × String)) (k v : String)
    (h : ∀ kv ∈ d, kv.1 ≠ k) : dictSet d k v = d ++ [(k, v)] := by
  induction d with
  | nil => rfl
  | cons kv rest ih =>
    have hk : kv.1 ≠ k := h kv (List.mem_cons_self kv rest)
    simp only [dictSet, if_neg hk, List.cons_append, List.cons.injEq, true_and]
    exact ih (fun kv2 h2 => h kv2 (List.mem_cons_of_mem kv h2))

/-- When the toolchain marker is missing, `info` is the defaulted
NOT_AVAILABLE record. -/
theorem info_of_not_available (env : Env) (h : Cpp.has_cpp_toolchain env = false) :
    Cpp.info env = Except.ok { name := "cpp" } := by
  simp [Cpp.info, h]

/-- When the toolchain is available and `tools/conan` exists, `info`
carries the settings catalog and the tool list. -/
theorem info_of_available (env : Env) (hh : Cpp.has_cpp_toolchain env = true)
    (hc : env.conanDirExists = true) :
    Cpp.info env =
      Except.ok { name := "cpp", status := ToolchainStatus.AVAILABLE,
                  build_opts := [{ name := "settings",
                                   values := extendDedup env.settingsDirList env.conanDirList }],
                  run_opts := [{ name := "tool", values := Cpp.tools }] } := by
  simp [Cpp.info, hh, Cpp.settings, listdirConan, hc]

/-- Settings validation always yields `false` on an unmarked directory. -/
theorem in_settings_of_not_available (env : Env) (s : String)
    (h : Cpp.has_cpp_toolchain env = false) :
    Cpp.in_settings env s = Except.ok false := by
  simp [Cpp.in_settings, info_of_not_available env h, inOpts]

/-- Settings validation on an available toolchain is membership in the
union of the bundled listing and the `tools/conan` listing. -/
theorem in_settings_of_available (env : Env) (s : String)
    (hh : Cpp.has_cpp_toolchain env = true) (hc : env.conanDirExists = true) :
    Cpp.in_settings env s =
      Except.ok (decide (s ∈ env.settingsDirList ∨ s ∈ env.conanDirList)) := by
  simp only [Cpp.in_settings, info_of_available env hh hc, inOpts]
  by_cases hmem : s ∈ extendDedup env.settingsDirList env.conanDirList
  · rw [if_pos (by exact ⟨trivial, hmem⟩)]
    rw [extendDedup_mem] at hmem
    simp [hmem]
  · rw [if_neg (by intro hand; exact hmem hand.2)]
    rw [extendDedup_mem] at hmem
    simp [hmem]

/-- Tool validation always yields `false` on an unmarked directory. -/
theorem in_tools_of_not_available (env : Env) (t : String)
    (h : Cpp.has_cpp_toolchain env = false) :
    Cpp.in_tools env t = Except.ok false := by
  simp [Cpp.in_tools, info_of_not_available env h, inOpts]

/-- Tool validation on an available toolchain is membership in the fixed
tool list. -/
theorem in_tools_of_available (env : Env) (t : String)
    (hh : Cpp.has_cpp_toolchain env = true) (hc : env.conanDirExists = true) :
    Cpp.in_tools env t = Except.ok (decide (t ∈ Cpp.tools)) := by
  simp only [Cpp.in_tools, info_of_available env hh hc, inOpts]
  by_cases hmem : t ∈ Cpp.tools
  · rw [if_pos (by exact ⟨trivial, hmem⟩)]
    simp [hmem]
  · rw [if_neg (by intro hand; exact hmem hand.2)]
    simp [hmem]

/-- A tool name accepted by validation is one of the six known tools. -/
theorem in_tools_mem (env : Env) (t : String)
    (h : Cpp.in_tools env t = Except.ok true) : t ∈ Cpp.tools := by
  by_cases hh : Cpp.has_cpp_toolchain env = true
  · by_cases hc : env.conanDirExists = true
    · rw [in_tools_of_available env t hh hc] at h
      have := Except.ok.inj h
      simpa using this
    · have hcf : env.conanDirExists = false := by
        cases hx : env.conanDirExists
        · rfl
        · exact absurd hx hc
      simp [Cpp.in_tools, Cpp.info, hh, Cpp.settings, listdirConan, hcf] at h
  · have hf : Cpp.has_cpp_toolchain env = false := by
      cases hx : Cpp.has_cpp_toolchain env
      · rfl
      · exact absurd hx hh
    rw [in_tools_of_not_available env t hf] at h
    exact absurd (Except.ok.inj h) (by simp)

/-- The per-executable loop spawns every discovered executable, in order,
regardless of failures. -/
theorem gtestLoop_events (apps : List (String × Int)) (msg : String) (r : Result) :
    (gtestLoop apps msg r).2 = apps.map (fun a => Event.spawn a.1) := by
  induction apps generalizing r with
  | nil => rfl
  | cons a rest ih =>
    obtain ⟨app, ec⟩ := a
    by_cases hec : ec ≠ 0 <;> simp [gtestLoop, hec, ih]

/-- The per-executable loop downgrades the code to ERROR_COMMAND_FAILED
exactly when some executable exits non-zero, and otherwise leaves the
seeded code unchanged (one-directional downgrade). -/
theorem gtestLoop_code (apps : List (String × Int)) (msg : String) (r : Result) :
    (gtestLoop apps msg r).1.code =
      (if apps.any (fun a => decide (a.2 ≠ 0)) then StatusCode.ERROR_COMMAND_FAILED
       else r.code) := by
  induction apps generalizing r with
  | nil => rfl
  | cons a rest ih =>
    obtain ⟨app, ec⟩ := a
    by_cases hec : ec ≠ 0
    · simp only [gtestLoop, if_pos hec, ih, List.any_cons]
      simp [hec]
    · have hec0 : ec = 0 := not_not.mp hec
      subst hec0
      simp only [gtestLoop, if_neg hec, ih, List.any_cons]
      simp only [show (decide ((0 : Int) ≠ 0)) = false from by decide, Bool.false_or]

/-- The per-executable loop appends one detail entry per executable,
keyed by its basename, carrying the pass/fail marker of its exit code. -/
theorem gtestLoop_info (apps : List (String × Int)) (msg : String) (r : Result)
    (hnd : (apps.map (fun a => basename a.1)).Nodup)
    (hkeys : ∀ a ∈ apps, ∀ kv ∈ r.info, kv.1 ≠ basename a.1) :
    (gtestLoop apps msg r).1.info =
      r.info ++ apps.map (fun a =>
        (basename a.1,
         if a.2 ≠ 0 then "[red]failed[/red]" else "[green]passed[/green]")) := by
  induction apps generalizing r with
  | nil => simp [gtestLoop]
  | cons a rest ih =>
    obtain ⟨app, ec⟩ := a
    have hset : dictSet r.info (basename app)
        (if ec ≠ 0 then "[red]failed[/red]" else "[green]passed[/green]") =
        r.info ++ [(basename app,
          if ec ≠ 0 then "[red]failed[/red]" else "[green]passed[/green]")] :=
      dictSet_append r.info (basename app) _
        (fun kv h => hkeys (app, ec) (List.mem_cons_self _ _) kv h)
    have hnd_head : basename app ∉ rest.map (fun a => basename a.1) := by
      simpa using hnd.not_mem
    have hnd_rest : (rest.map (fun a => basename a.1)).Nodup := by
      simpa using hnd.of_cons
    by_cases hec : ec ≠ 0
    · simp only [gtestLoop, if_pos hec]
      rw [ih _ hnd_rest]
      · simp only [if_pos hec] at hset
        rw [hset]
        simp [hec]
      · intro a ha kv hkv
        rw [if_pos hec] at hset
        rw [hset] at hkv
        rcases List.mem_append.mp hkv with h1 | h1
        · exact hkeys a (List.mem_cons_of_mem _ ha) kv h1
        · have : kv = (basename app, "[red]failed[/red]") := by simpa using h1
          subst this
          show basename app ≠ basename a.1
          intro hcontra
          apply hnd_head
          rw [hcontra]
          exact List.mem_map.mpr ⟨a, ha, rfl⟩
    · have hec0 : ec = 0 := not_not.mp hec
      simp only [gtestLoop, if_neg hec]
      rw [ih _ hnd_rest]
      · simp only [if_neg hec] at hset
        rw [hset]
        simp [hec0]
      · intro a ha kv hkv
        rw [if_neg hec] at hset
        rw [hset] at hkv
        rcases List.mem_append.mp hkv with h1 | h1
        · exact hkeys a (List.mem_cons_of_mem _ ha) kv h1
        · have : kv = (basename app, "[green]passed[/green]") := by simpa using h1
          subst this
          show basename app ≠ basename a.1
          intro hcontra
          apply hnd_head
          rw [hcontra]
          exact List.mem_map.mpr ⟨a, ha, rfl⟩

/-- The pipeline after validation never produces ERROR_INTERNAL. -/
theorem buildCore_code_ne_internal (env : Env) (oracle : Oracle) (s : String)
    (cmake_opts : List String) (verbose : Bool) :
    (buildCore env oracle s cmake_opts verbose).1.code ≠ StatusCode.ERROR_INTERNAL := by
  by_cases p1 : oracle.conanProfileExists = false ∧ oracle.bundledProfileExists = false <;>
  by_cases p2 : oracle.conanExit ≠ 0 <;>
  by_cases p3 : oracle.toolchainFileExists = false <;>
  by_cases p4 : oracle.configExit ≠ 0 <;>
  by_cases p5 : oracle.compileExit ≠ 0 <;>
  simp [buildCore, p1, p2, p3, p4, p5]

/-- `build` never returns ERROR_INTERNAL. -/
theorem build_code_ne_internal (env : Env) (oracle : Oracle) (s : String)
    (cmake_opts : List String) (verbose : Bool) (r : Result) (ev : List Event)
    (h : Cpp.build env oracle s cmake_opts verbose = Except.ok (r, ev)) :
    r.code ≠ StatusCode.ERROR_INTERNAL := by
  unfold Cpp.build at h
  split at h
  · exact absurd h (by simp)
  · split at h
    · have hr := congrArg Prod.fst (Except.ok.inj h)
      dsimp only at hr
      rw [← hr]
      simp
    · have hr := congrArg Prod.fst (Except.ok.inj h)
      dsimp only at hr
      rw [← hr]
      exact buildCore_code_ne_internal env oracle s cmake_opts verbose

/-- `clean` always succeeds. -/
theorem clean_code (env : Env) : (Cpp.clean env).1.code = StatusCode.SUCCESS := rfl

/-- A result is `ok` exactly when its code is SUCCESS. -/
theorem Result.ok_iff (r : Result) : r.ok = true ↔ r.code = StatusCode.SUCCESS := by
  obtain ⟨c, m, i⟩ := r
  cases c <;> simp only [Result.ok] <;> decide

/-- Soundness of the `(\w+)$` matcher against the specification shape. -/
theorem suffixMatchB_sound (w : List Char) (h : suffixMatchB w = true) :
    ∃ v : List Char, (w = v ∨ w = v ++ ['\n']) ∧ v ≠ [] ∧
      ∀ c ∈ v, isWordChar c = true := by
  unfold suffixMatchB suffixCore at h
  rw [Bool.and_eq_true] at h
  obtain ⟨hne, hall⟩ := h
  by_cases hlast : w.getLast? = some '\n'
  · rw [if_pos hlast] at hne hall
    refine ⟨w.dropLast, Or.inr ?_, ?_, ?_⟩
    · exact (List.dropLast_append_getLast? '\n' hlast).symm
    · intro hnil
      rw [hnil] at hne
      simp at hne
    · intro c hc
      exact List.all_eq_true.mp hall c hc
  · rw [if_neg hlast] at hne hall
    refine ⟨w, Or.inl rfl, ?_, ?_⟩
    · intro hnil
      rw [hnil] at hne
      simp at hne
    · intro c hc
      exact List.all_eq_true.mp hall c hc

/-- Soundness of the split matcher against the specification predicate. -/
theorem checkSplit_sound (l : List Char) (i : Nat) (h : checkSplit l i = true) :
    validSplit l i := by
  unfold checkSplit at h
  simp only [Bool.and_eq_true, decide_eq_true_eq, List.all_eq_true, beq_iff_eq] at h
  obtain ⟨⟨⟨⟨⟨h1, h2⟩, h3⟩, h4⟩, h5⟩, h6⟩ := h
  refine ⟨h1, h2, ?_, h4, h5, suffixMatchB_sound _ h6⟩
  intro c hc
  have := h3 c hc
  simpa using this

/-- If no split position matches, the backtracking search fails. -/
theorem findSplit_eq_none (l : List Char) (h : ∀ i, checkSplit l i = false) :
    ∀ n, findSplit l n = none := by
  intro n
  induction n with
  | zero => rfl
  | succ m ih => simp [findSplit, h (m + 1), ih]

/-- `__run_clang_tidy` never produces ERROR_INTERNAL. -/
theorem run_clang_tidy_code_ne_internal (env : Env) (oracle : Oracle) (v : Bool)
    (r : Result) (ev : List Event)
    (h : Cpp.run_clang_tidy env oracle v = Except.ok (r, ev)) :
    r.code ≠ StatusCode.ERROR_INTERNAL := by
  have hco : (Cpp.clean env).1.ok = true := rfl
  simp only [Cpp.run_clang_tidy, hco, Bool.true_eq_false, if_false] at h
  split at h
  · exact absurd h (by simp)
  · rename_i built heq
    have hr := congrArg Prod.fst (Except.ok.inj h)
    dsimp only at hr
    rw [← hr]
    exact build_code_ne_internal env oracle default_settings
      ["-DANALYSIS=clang-tidy"] v built.1 built.2 (by rw [heq])

/-- `__run_gtest` never produces ERROR_INTERNAL. -/
theorem run_gtest_code_ne_internal (env : Env) (oracle : Oracle) (v : Bool)
    (r : Result) (ev : List Event)
    (h : Cpp.run_gtest env oracle v = Except.ok (r, ev)) :
    r.code ≠ StatusCode.ERROR_INTERNAL := by
  unfold Cpp.run_gtest at h
  split at h
  · exact absurd h (by simp)
  · rename_i built heq
    split at h
    · have hr := congrArg Prod.fst (Except.ok.inj h)
      dsimp only at hr
      rw [← hr]
      exact build_code_ne_internal env oracle default_settings [] v built.1 built.2
        (by rw [heq])
    · have hr := congrArg Prod.fst (Except.ok.inj h)
      dsimp only at hr
      rw [← hr]
      rw [gtestLoop_code]
      split <;> simp

/-- `__run_benchmark` never produces ERROR_INTERNAL. -/
theorem run_benchmark_code_ne_internal (env : Env) (oracle : Oracle) (v : Bool)
    (r : Result) (ev : List Event)
    (h : Cpp.run_benchmark env oracle v = Except.ok (r, ev)) :
    r.code ≠ StatusCode.ERROR_INTERNAL := by
  unfold Cpp.run_benchmark at h
  split at h
  · exact absurd h (by simp)
  · rename_i built heq
    split at h
    · have hr := congrArg Prod.fst (Except.ok.inj h)
      dsimp only at hr
      rw [← hr]
      exact build_code_ne_internal env oracle default_settings [] v built.1 built.2
        (by rw [heq])
    · have hr := congrArg Prod.fst (Except.ok.inj h)
      dsimp only at hr
      rw [← hr]
      rw [gtestLoop_code]
      split <;> simp

/-- `__run_xsan` never produces ERROR_INTERNAL. -/
theorem run_xsan_code_ne_internal (env : Env) (oracle : Oracle) (san : String)
    (v : Bool) (r : Result) (ev : List Event)
    (h : Cpp.run_xsan env oracle san v = Except.ok (r, ev)) :
    r.code ≠ StatusCode.ERROR_INTERNAL := by
  have hco : (Cpp.clean env).1.ok = true := rfl
  simp only [Cpp.run_xsan, hco, Bool.true_eq_false, if_false] at h
  split at h
  · exact absurd h (by simp)
  · rename_i built heq
    split at h
    · have hr := congrArg Prod.fst (Except.ok.inj h)
      dsimp only at hr
      rw [← hr]
      exact build_code_ne_internal env oracle default_settings
        ["-DSANITIZER=" ++ san] v built.1 built.2 (by rw [heq])
    · split at h
      · exact absurd h (by simp)
      · have hr := congrArg Prod.fst (Except.ok.inj h)
        dsimp only at hr
        rw [← hr]
        rw [gtestLoop_code]
        split
        · simp
        · exact build_code_ne_internal env oracle default_settings
            ["-DSANITIZER=" ++ san] v built.1 built.2 (by rw [heq])

/-! ### Claim theorems -/

/-- C1: for every settings name that is not a member of the settings
catalog (the union of the bundled settings directory and the project-local
`tools/conan` override directory), `build` returns ERROR_INVALID_CONFIG
and the effect trace is empty: no process is spawned and no filesystem
mutation is performed. -/
theorem C1_build_unknown_settings_rejected (env : Env) (oracle : Oracle)
    (s : String) (copts : List String) (v : Bool)
    (hc : env.conanDirExists = true)
    (h1 : s ∉ env.settingsDirList) (h2 : s ∉ env.conanDirList) :
    Cpp.build env oracle s copts v =
      Except.ok ({ code := StatusCode.ERROR_INVALID_CONFIG,
                   message := "Unknown settings" }, []) := by
  unfold Cpp.build
  by_cases hh : Cpp.has_cpp_toolchain env = true
  · rw [in_settings_of_available env s hh hc]
    have hd : decide (s ∈ env.settingsDirList ∨ s ∈ env.conanDirList) = false := by
      simp [h1, h2]
    rw [hd]
    rfl
  · have hf : Cpp.has_cpp_toolchain env = false := by
      cases hx : Cpp.has_cpp_toolchain env
      · rfl
      · exact absurd hx hh
    rw [in_settings_of_not_available env s hf]
    rfl

/-- C1 witness: a name outside the catalog of the example project. -/
theorem C1_witness :
    Cpp.build exEnvProj exOracleTests "nope" [] false =
      Except.ok ({ code := StatusCode.ERROR_INVALID_CONFIG,
                   message := "Unknown settings" }, []) :=
  C1_build_unknown_settings_rejected exEnvProj exOracleTests "nope" [] false
    rfl (by decide) (by decide)

/-- C4: on a root directory that does not exist or lacks the
`CMakeLists.txt` marker, `info` returns NOT_AVAILABLE with empty
build/run/deploy option lists. -/
theorem C4_info_not_available_empty_opts (env : Env)
    (h : env.rootExists = false ∨ env.markerExists = false) :
    Cpp.info env =
      Except.ok { name := "cpp", status := ToolchainStatus.NOT_AVAILABLE,
                  build_opts := [], run_opts := [], deploy_opts := [] } := by
  have hf : Cpp.has_cpp_toolchain env = false := by
    rcases h with h | h <;> simp [Cpp.has_cpp_toolchain, h]
  exact info_of_not_available env hf

/-- C4 witness: the example project without its marker file. -/
theorem C4_witness :
    Cpp.info exEnvNoMarker =
      Except.ok { name := "cpp", status := ToolchainStatus.NOT_AVAILABLE,
                  build_opts := [], run_opts := [], deploy_opts := [] } :=
  C4_info_not_available_empty_opts exEnvNoMarker (Or.inr rfl)

/-- C5: `create` without `force` on a non-empty root directory returns
ERROR_INVALID_CONFIG with an empty effect trace: nothing is copied. -/
theorem C5_create_nonempty_no_mutation (env : Env)
    (hr : env.rootExists = true) (hne : env.rootList ≠ []) :
    Cpp.create env false =
      Except.ok ({ code := StatusCode.ERROR_INVALID_CONFIG,
                   message := "Target directory is not empty",
                   info := [("root-directory", env.rootDir)] }, []) := by
  unfold Cpp.create listdirRoot
  rw [hr]
  have hl : env.rootList.length > 0 := List.length_pos.mpr hne
  simp [hl]

/-- C5 witness: the example project directory is non-empty. -/
theorem C5_witness :
    Cpp.create exEnvProj false =
      Except.ok ({ code := StatusCode.ERROR_INVALID_CONFIG,
                   message := "Target directory is not empty",
                   info := [("root-directory", "proj")] }, []) :=
  C5_create_nonempty_no_mutation exEnvProj rfl (by decide)

/-- C9: when the root directory carries the `CMakeLists.txt` marker but
has no `tools/conan` subdirectory, `info` raises FileNotFoundError
(modelled as `Except.error`) instead of returning a value, and so do the
validation steps of `build` and `run` for every name. -/
theorem C9_missing_conan_dir_raises (env : Env) (oracle : Oracle)
    (hr : env.rootExists = true) (hm : env.markerExists = true)
    (hc : env.conanDirExists = false) :
    Cpp.info env = Except.error PyError.fileNotFound ∧
    (∀ s copts v, Cpp.build env oracle s copts v = Except.error PyError.fileNotFound) ∧
    (∀ t v, Cpp.run env oracle t v = Except.error PyError.fileNotFound) := by
  have hh : Cpp.has_cpp_toolchain env = true := by
    simp [Cpp.has_cpp_toolchain, hr, hm]
  have hi : Cpp.info env = Except.error PyError.fileNotFound := by
    simp [Cpp.info, hh, Cpp.settings, listdirConan, hc]
  refine ⟨hi, ?_, ?_⟩
  · intro s copts v
    unfold Cpp.build Cpp.in_settings
    rw [hi]
  · intro t v
    unfold Cpp.run Cpp.in_tools
    rw [hi]

/-- C9 witness: the example project without `tools/conan`. -/
theorem C9_witness :
    Cpp.build exEnvNoConan exOracleTests "clang14__x86_64-pc-linux-elf__release" [] false =
      Except.error PyError.fileNotFound :=
  (C9_missing_conan_dir_raises exEnvNoConan exOracleTests rfl rfl rfl).2.1
    "clang14__x86_64-pc-linux-elf__release" [] false

/-- C10: on a root directory lacking the marker, `build` returns
ERROR_INVALID_CONFIG ("Unknown settings") for every settings name and
`run` returns ERROR_INVALID_CONFIG ("Unknown tool") for every tool name,
because validation consults `info`, whose option catalogs are empty when
the status is NOT_AVAILABLE. -/
theorem C10_unmarked_rejects_all_names (env : Env) (oracle : Oracle)
    (h : Cpp.has_cpp_toolchain env = false) :
    (∀ s copts v, Cpp.build env oracle s copts v =
      Except.ok ({ code := StatusCode.ERROR_INVALID_CONFIG,
                   message := "Unknown settings" }, [])) ∧
    (∀ t v, Cpp.run env oracle t v =
      Except.ok ({ code := StatusCode.ERROR_INVALID_CONFIG,
                   message := "Unknown tool" }, [])) := by
  constructor
  · intro s copts v
    unfold Cpp.build
    rw [in_settings_of_not_available env s h]
    rfl
  · intro t v
    unfold Cpp.run
    rw [in_tools_of_not_available env t h]
    rfl

/-- C10 witness: names that are valid on a marked directory are still
rejected on the unmarked one. -/
theorem C10_witness :
    Cpp.build exEnvNoMarker exOracleTests "clang14__x86_64-pc-linux-elf__release" [] false =
      Except.ok ({ code := StatusCode.ERROR_INVALID_CONFIG,
                   message := "Unknown settings" }, []) ∧
    Cpp.run exEnvNoMarker exOracleTests "gtest" false =
      Except.ok ({ code := StatusCode.ERROR_INVALID_CONFIG,
                   message := "Unknown tool" }, []) :=
  ⟨(C10_unmarked_rejects_all_names exEnvNoMarker exOracleTests rfl).1
      "clang14__x86_64-pc-linux-elf__release" [] false,
   (C10_unmarked_rejects_all_names exEnvNoMarker exOracleTests rfl).2 "gtest" false⟩

/-- C6: on a set-up project, the settings catalog is the union of the
bundled listing and the `tools/conan` listing, the validation predicate
accepts exactly the members of that union, and the catalog carries each
name exactly once (override entries deduplicated against bundled names). -/
theorem C6_settings_validation_iff (env : Env) (s : String)
    (hr : env.rootExists = true) (hm : env.markerExists = true)
    (hc : env.conanDirExists = true) (hnd : env.settingsDirList.Nodup) :
    Cpp.settings env = Except.ok (extendDedup env.settingsDirList env.conanDirList) ∧
    (Cpp.in_settings env s = Except.ok true ↔
      (s ∈ env.settingsDirList ∨ s ∈ env.conanDirList)) ∧
    (extendDedup env.settingsDirList env.conanDirList).Nodup ∧
    ((s ∈ env.settingsDirList ∨ s ∈ env.conanDirList) →
      (extendDedup env.settingsDirList env.conanDirList).count s = 1) := by
  have hh : Cpp.has_cpp_toolchain env = true := by
    simp [Cpp.has_cpp_toolchain, hr, hm]
  have hcat : Cpp.settings env =
      Except.ok (extendDedup env.settingsDirList env.conanDirList) := by
    simp [Cpp.settings, listdirConan, hc]
  have hnodup := extendDedup_nodup env.conanDirList env.settingsDirList hnd
  refine ⟨hcat, ?_, hnodup, ?_⟩
  · rw [in_settings_of_available env s hh hc]
    constructor
    · intro h
      exact of_decide_eq_true (Except.ok.inj h)
    · intro h
      rw [decide_eq_true h]
  · intro hmem
    have hmem2 : s ∈ extendDedup env.settingsDirList env.conanDirList :=
      (extendDedup_mem _ _ _).mpr hmem
    exact List.count_eq_one_of_mem hnodup hmem2

/-- C6 witness: the default settings name is accepted on the example
project. -/
theorem C6_witness : Cpp.in_settings exEnvProj default_settings = Except.ok true :=
  ((C6_settings_validation_iff exEnvProj default_settings rfl rfl rfl
    (by decide)).2.1).mpr (Or.inl (by decide))

/-- C7: the derived build type is the trailing `__<token>` segment
upper-cased — `build_type "toolset__x86_64__release" = "RELEASE"` — and a
settings name with no trailing double-underscore word segment (such as
"no-suffix-match") yields the empty string rather than an error. The
universal part is stated for ASCII names, the fragment on which the
embedding of Python's Unicode-aware `\w` and `upper()` is exact. -/
theorem C7_build_type_trailing_segment :
    Cpp.build_type "toolset__x86_64__release" = "RELEASE" ∧
    Cpp.build_type "no-suffix-match" = "" ∧
    ∀ s : String, allAscii s = true → (∀ i, ¬ validSplit s.toList i) →
      Cpp.build_type s = "" := by
  refine ⟨by decide, by decide, ?_⟩
  intro s _hascii h
  have hc : ∀ i, checkSplit s.toList i = false := by
    intro i
    cases hcs : checkSplit s.toList i
    · rfl
    · exact absurd (checkSplit_sound s.toList i hcs) (h i)
  unfold Cpp.build_type reGroup
  rw [findSplit_eq_none s.toList hc s.toList.length]

/-- C7 witness: a string too short for any split position. -/
theorem C7_witness : Cpp.build_type "abc" = "" := by
  apply C7_build_type_trailing_segment.2.2 "abc" (by decide)
  intro i hv
  obtain ⟨h1, h2, -⟩ := hv
  have hlen : ("abc".toList).length = 3 := by decide
  rw [hlen] at h2
  omega

/-- C2 counterexample: with a failing package-manager install step, the
returned message is "Failed to install conan packages", not the message
"failed to install packages" stated by the claim. -/
theorem C2_counterexample :
    resCodeOf (Cpp.build exEnvProj exOracleFailInstall
      "clang14__x86_64-pc-linux-elf__release" [] false) =
      some StatusCode.ERROR_COMMAND_FAILED ∧
    resMsgOf (Cpp.build exEnvProj exOracleFailInstall
      "clang14__x86_64-pc-linux-elf__release" [] false) =
      some "Failed to install conan packages" ∧
    "Failed to install conan packages" ≠ "failed to install packages" :=
  ⟨by decide, by decide, by decide⟩

/-- C2 (amended): when the install step exits non-zero, `build` stops
with ERROR_COMMAND_FAILED and message "Failed to install conan packages",
and the only spawned process in the trace is the install command — the
configure and compile steps are never invoked. -/
theorem C2_install_failure_stops_pipeline (env : Env) (oracle : Oracle)
    (s : String) (copts : List String) (v : Bool)
    (hr : env.rootExists = true) (hm : env.markerExists = true)
    (hc : env.conanDirExists = true)
    (hmem : s ∈ env.settingsDirList ∨ s ∈ env.conanDirList)
    (hprof : oracle.conanProfileExists = true ∨ oracle.bundledProfileExists = true)
    (hfail : oracle.conanExit ≠ 0) :
    ∃ ev, Cpp.build env oracle s copts v =
        Except.ok ({ code := StatusCode.ERROR_COMMAND_FAILED,
                     message := "Failed to install conan packages" }, ev) ∧
      ev.filter Event.isSpawn = [Event.spawn (conanCmd env s)] := by
  have hh : Cpp.has_cpp_toolchain env = true := by
    simp [Cpp.has_cpp_toolchain, hr, hm]
  unfold Cpp.build
  rw [in_settings_of_available env s hh hc, decide_eq_true hmem]
  have hp1 : ¬(oracle.conanProfileExists = false ∧ oracle.bundledProfileExists = false) := by
    rcases hprof with h | h <;> simp [h]
  refine ⟨((if oracle.conanProfileExists then ([] : List Event)
      else [Event.copyFile (pjoin dataSettingsDir s) (settingsPath env s)]) ++
      (if oracle.buildDirExists then ([] : List Event)
      else [Event.makedirs (buildDirFor env s)])) ++ [Event.spawn (conanCmd env s)],
    ?_, ?_⟩
  · show Except.ok (buildCore env oracle s copts v) = _
    simp only [buildCore, if_neg hp1, if_pos hfail]
  · by_cases hx : oracle.conanProfileExists <;> by_cases hy : oracle.buildDirExists <;>
      simp [hx, hy, Event.isSpawn, List.filter_append]

/-- C2 witness: a concrete failing install on the example project. -/
theorem C2_witness :
    resMsgOf (Cpp.build exEnvProj exOracleFailInstall
      "clang14__x86_64-pc-linux-elf__release" [] false) =
      some "Failed to install conan packages" := by
  obtain ⟨ev, h1, h2⟩ := C2_install_failure_stops_pipeline exEnvProj exOracleFailInstall
    "clang14__x86_64-pc-linux-elf__release" [] false rfl rfl rfl
    (Or.inl (by decide)) (Or.inr rfl) (by decide)
  rw [h1]
  rfl

/-- C3 counterexample to the claim as stated: two discovered `*-test`
executables in different subdirectories share the base name `a-test`;
the first exits non-zero, the second exits zero. The program produces a
single merged detail entry for the two executables, and it reads
"passed" even though the first executable failed — so there is not one
pass/fail entry per executable (the overall code still correctly stays
ERROR_COMMAND_FAILED). -/
theorem C3_counterexample :
    resInfoOf (Cpp.run_gtest exEnvProj exOracleDupTests false) =
      some [("root-directory", "proj"),
            ("build-directory", "proj/build/clang14__x86_64-pc-linux-elf__release"),
            ("a-test", "[green]passed[/green]")] ∧
    resCodeOf (Cpp.run_gtest exEnvProj exOracleDupTests false) =
      some StatusCode.ERROR_COMMAND_FAILED ∧
    exOracleDupTests.testApps.length = 2 :=
  ⟨rfl, rfl, rfl⟩

/-- C3 (amended): when the default-settings build of `run("gtest")`
returned SUCCESS, every discovered `*-test` executable is executed (one
spawn per executable, no short-circuit), and the overall code is
ERROR_COMMAND_FAILED iff at least one executable exits non-zero (the
downgrade is one-directional, a later pass never restores SUCCESS).
Each execution writes its pass/fail value under the executable's base
name, so the detail map has one entry per executable exactly when the
discovered base names are pairwise distinct — executables sharing a base
name collapse to one entry, the later overwriting the earlier. -/
theorem C3_gtest_aggregation (env : Env) (oracle : Oracle) (v : Bool)
    (bres : Result) (bev : List Event)
    (hb : Cpp.build env oracle default_settings [] v = Except.ok (bres, bev))
    (hok : bres.ok = true) :
    ∃ r : Result,
      Cpp.run_gtest env oracle v =
        Except.ok (r, bev ++ oracle.testApps.map (fun a => Event.spawn a.1)) ∧
      r.code = (if oracle.testApps.any (fun a => decide (a.2 ≠ 0))
                then StatusCode.ERROR_COMMAND_FAILED else StatusCode.SUCCESS) ∧
      ((oracle.testApps.map (fun a => basename a.1)).Nodup →
       (∀ a ∈ oracle.testApps, strEndsWith (basename a.1) "-test" = true) →
       r.info = [("root-directory", env.rootDir),
                 ("build-directory", buildDirFor env default_settings)] ++
         oracle.testApps.map (fun a =>
           (basename a.1,
            if a.2 ≠ 0 then "[red]failed[/red]" else "[green]passed[/green]"))) := by
  have hokn : ¬(bres.ok = false) := by
    rw [hok]
    simp
  unfold Cpp.run_gtest
  rw [hb]
  simp only [if_neg hokn]
  set r0 : Result :=
    { code := StatusCode.SUCCESS, message := "Tests successfully executed",
      info := [("root-directory", env.rootDir),
               ("build-directory", buildDirFor env default_settings)] } with hr0
  refine ⟨(gtestLoop oracle.testApps "Failed to run gtest" r0).1, ?_, ?_, ?_⟩
  · rw [gtestLoop_events]
  · rw [gtestLoop_code]
  · intro hnd hsuf
    rw [gtestLoop_info oracle.testApps "Failed to run gtest" r0 hnd]
    intro a ha kv hkv
    have hsufa := hsuf a ha
    rw [hr0] at hkv
    simp only [List.mem_cons, List.not_mem_nil, or_false] at hkv
    rcases hkv with rfl | rfl
    · show "root-directory" ≠ basename a.1
      intro hcontra
      rw [← hcontra] at hsufa
      exact absurd hsufa (by decide)
    · show "build-directory" ≠ basename a.1
      intro hcontra
      rw [← hcontra] at hsufa
      exact absurd hsufa (by decide)

/-- C3 witness: the example project with one passing and one failing test
executable ends in ERROR_COMMAND_FAILED. -/
theorem C3_witness :
    resCodeOf (Cpp.run_gtest exEnvProj exOracleTests false) =
      some StatusCode.ERROR_COMMAND_FAILED := by
  obtain ⟨r, h1, h2, h3⟩ := C3_gtest_aggregation exEnvProj exOracleTests false
    exBuildOut.1 exBuildOut.2 (by rfl) (by rfl)
  rw [h1]
  simp only [resCodeOf]
  rw [h2]
  decide

/-- C8: every tool name that passes validation dispatches to one of the
six auxiliary procedures, so the trailing defensive branch is dead:
whenever `run` returns a Result, its code is never ERROR_INTERNAL. -/
theorem C8_run_never_internal (env : Env) (oracle : Oracle) (tool : String)
    (v : Bool) (r : Result) (ev : List Event)
    (h : Cpp.run env oracle tool v = Except.ok (r, ev)) :
    r.code ≠ StatusCode.ERROR_INTERNAL ∧
    (Cpp.in_tools env tool = Except.ok true → tool ∈ Cpp.tools) := by
  refine ⟨?_, in_tools_mem env tool⟩
  unfold Cpp.run at h
  split at h
  · exact absurd h (by simp)
  · rename_i valid heq
    split at h
    · have hr := congrArg Prod.fst (Except.ok.inj h)
      dsimp only at hr
      rw [← hr]
      simp
    · rename_i hvf
      have hvt : valid = true := by
        cases valid
        · exact absurd rfl hvf
        · rfl
      split at h
      · exact run_clang_tidy_code_ne_internal _ _ _ _ _ h
      · rename_i hn1
        split at h
        · exact run_gtest_code_ne_internal _ _ _ _ _ h
        · rename_i hn2
          split at h
          · exact run_benchmark_code_ne_internal _ _ _ _ _ h
          · rename_i hn3
            split at h
            · exact run_xsan_code_ne_internal _ _ _ _ _ _ h
            · rename_i hn4
              split at h
              · exact run_xsan_code_ne_internal _ _ _ _ _ _ h
              · rename_i hn5
                split at h
                · exact run_xsan_code_ne_internal _ _ _ _ _ _ h
                · rename_i hn6
                  subst hvt
                  have hmem := in_tools_mem env tool heq
                  simp only [Cpp.tools, List.mem_cons, List.not_mem_nil,
                    or_false] at hmem
                  rcases hmem with hm | hm | hm | hm | hm | hm
                  · exact absurd hm hn1
                  · exact absurd hm hn2
                  · exact absurd hm hn3
                  · exact absurd hm hn4
                  · exact absurd hm hn5
                  · exact absurd hm hn6

/-- C8 witness: a concrete validated run on the example project. -/
theorem C8_witness : exRunOut.1.code ≠ StatusCode.ERROR_INTERNAL :=
  (C8_run_never_internal exEnvProj exOracleTests "gtest" false
    exRunOut.1 exRunOut.2 (by rfl)).1
